import Mathlib

/-!
Shallow embedding of the ZIMRA fiscalization connector
(`src/models/account_move.py`, `src/models/zimra_tax_mapping.py`).

Conventions of the embedding:
* Odoo `Char`/`Text` fields that can be unset (`False`/`None`) are `Option String`;
  an unset field is `none`.
* Monetary amounts are rationals (`ℚ`); Python float formatting `f"{x:.nf}"` is
  modelled by `fmtFixed`, which renders the sign of the value followed by the
  rounded decimal digits.
* Datetimes are abstract ticks (`Nat`); `fields.Datetime.now()` is the `now`
  field of the ambient `Env`.
* The transport response of `zimra.config.send_fiscal_data` (that model is not
  part of `src/`) is modelled from the spec: a JSON array of objects with keys
  `FiscalDay`, `InvoiceNumber`, `QrData`, `FiscalInvoicePdf`, `Error`,
  `RequestId`, or Python `None`; hence `Option (List RespItem)`.
* Exceptions inside `_send_to_zimra`'s `try` block are modelled by an oracle
  `Exc`: none, raised during payload build (before the audit row is created),
  or raised at the transport call (after the audit row is created).
-/

set_option linter.unusedVariables false

namespace Zimra

/-- The `zimra_status` selection field on `account.move`. -/
inductive ZStatus
  | pending
  | sent
  | fiscalized
  | failed
  | cancelled
  | exempted
deriving DecidableEq

/-- Odoo `account.move.move_type` values relevant to the connector. -/
inductive MoveType
  | out_invoice
  | out_refund
  | out_receipt
  | in_invoice
  | in_refund
  | in_receipt
  | entry
deriving DecidableEq

/-- Odoo `account.move.state` values. -/
inductive MoveState
  | draft
  | posted
  | cancel
deriving DecidableEq

/-- Odoo `display_type` of an invoice line (product line vs. section/note). -/
inductive DisplayType
  | product
  | line_section
  | line_note
deriving DecidableEq

/-- Python truthiness of an optional string (unset and the empty string are falsy). -/
def pyTruthyStr : Option String → Bool
  | none => false
  | some s => !(s == "")

/-- Python `x or default` on an optional string field. -/
def pyOrStr (o : Option String) (dflt : String) : String :=
  match o with
  | none => dflt
  | some s => if s == "" then dflt else s

/-- Python f-string interpolation of a value that may be `None`. -/
def pyStr : Option String → String
  | none => "None"
  | some s => s

/-- One element of the transport's JSON-array response.  Absent keys are `none`.
Modelled from the spec: the newer-schema response is a JSON array with one
object containing `FiscalDay`, `InvoiceNumber`, `QrData`, `FiscalInvoicePdf`,
`Error`, `RequestId`. -/
structure RespItem where
  Error : Option String := none
  FiscalDay : Option String := none
  InvoiceNumber : Option String := none
  QrData : Option String := none
  FiscalInvoicePdf : Option String := none
  RequestId : Option String := none
  verification_url : Option String := none
  fiscal_number : Option String := none
deriving DecidableEq

/-- The raw transport response: Python `None` or a JSON list. -/
abbrev RespData := Option (List RespItem)

/-- Python truthiness of the response (`None` and `[]` are falsy). -/
def pyTruthyResp : RespData → Bool
  | none => false
  | some [] => false
  | some (_ :: _) => true

/-- `response_data[0] if response_data else {}`: the first element, or an empty
dict when the response is falsy. -/
def headItem : RespData → RespItem
  | some (r :: _) => r
  | _ => {}

/-- `AccountMove._is_fiscalization_successful` (account_move.py lines 321-327):
false when the response is falsy or not a list, else true iff the first
element's `Error` value is falsy. -/
def is_fiscalization_successful : RespData → Bool
  | some (r :: _) => !(pyTruthyStr r.Error)
  | _ => false

/-- JSON rendering of an optional string (models `json.dumps` of a value). -/
def dumpsOptStr : Option String → String
  | none => "null"
  | some s => "\"" ++ s ++ "\""

/-- JSON rendering of one response element (models `json.dumps`; absent keys
are rendered as `null`). -/
def dumpsItem (r : RespItem) : String :=
  "\x7b\"Error\":" ++ dumpsOptStr r.Error ++
  ",\"FiscalDay\":" ++ dumpsOptStr r.FiscalDay ++
  ",\"InvoiceNumber\":" ++ dumpsOptStr r.InvoiceNumber ++
  ",\"QrData\":" ++ dumpsOptStr r.QrData ++
  ",\"FiscalInvoicePdf\":" ++ dumpsOptStr r.FiscalInvoicePdf ++
  ",\"RequestId\":" ++ dumpsOptStr r.RequestId ++
  ",\"fiscal_number\":" ++ dumpsOptStr r.fiscal_number ++ "\x7d"

/-- JSON rendering of the whole response (models `json.dumps(response_data)`). -/
def dumpsResp : RespData → String
  | none => "null"
  | some xs => "[" ++ String.intercalate "," (xs.map dumpsItem) ++ "]"

/-- A `zimra.tax.mapping` line as seen by the payload builder. -/
structure TaxMapping where
  odoo_tax_id : Nat
  zimra_tax_code : String
deriving DecidableEq

/-- A `zimra.currency.mapping` line as seen by the payload builder. -/
structure CurrencyMapping where
  odoo_currency_id : Nat
  zimra_currency_code : String
deriving DecidableEq

/-- The active `zimra.config` record of a company.  Modelled from the spec:
the `zimra.config` model itself is not under `src/`; per the spec it carries
feature flags (among them `auto_fiscalize`) and the tax/currency mapping
tables used by the payload builder. -/
structure Config where
  auto_fiscalize : Bool
  tax_mapping_ids : List TaxMapping := []
  currency_mapping_ids : List CurrencyMapping := []
deriving DecidableEq

/-- Modelled from the spec: a configuration "enables auto-fiscalization" when
its `auto_fiscalize` feature flag is set.  This is the spec-side reading used
to compare against the code's posting hook. -/
def spec_enables_auto_fiscalization (c : Config) : Bool :=
  c.auto_fiscalize

/-- An `res.partner` record as read by the payload builder. -/
structure Partner where
  name : String
  vat : Option String := none
  company_registry : Option String := none
  phone : Option String := none
  email : Option String := none
  state_name : Option String := none
  street : Option String := none
  street2 : Option String := none
  city : Option String := none
deriving DecidableEq

/-- A product record (`product_id`); only its `name` is read. -/
structure Product where
  name : String
deriving DecidableEq

/-- An `account.move.line`.  `total_included`/`total_excluded` hold the result
of Odoo's external tax engine `tax_ids.compute_all` for this line (an oracle
of the host framework).  `account.move.line` has no `price_subtotal_incl`
attribute, so the source's `hasattr` fallback always selects `price_total`. -/
structure InvoiceLine where
  display_type : DisplayType := .product
  name : Option String := none
  product_id : Option Product := none
  price_unit : ℚ := 0
  quantity : ℚ := 0
  discount : ℚ := 0
  price_total : ℚ := 0
  tax_ids : List Nat := []
  total_included : ℚ := 0
  total_excluded : ℚ := 0
deriving DecidableEq

/-- The `account.move` record with the connector's added fields
(account_move.py lines 16-39) and the host fields the connector reads. -/
structure Doc where
  name : String := ""
  ref : Option String := none
  move_type : MoveType := .out_invoice
  state : MoveState := .draft
  partner_id : Option Partner := none
  invoice_line_ids : List InvoiceLine := []
  amount_untaxed : ℚ := 0
  amount_tax : ℚ := 0
  amount_total : ℚ := 0
  currency_id : Nat := 0
  invoice_date : Option String := none
  reversed_entry_name : Option String := none
  zimra_status : ZStatus := .pending
  zimra_fiscal_number : Option String := none
  zimra_response : Option String := none
  zimra_error : Option String := none
  zimra_sent_date : Option Nat := none
  zimra_fiscalized_date : Option Nat := none
  zimra_retry_count : Nat := 0
  zimra_qr_code : Option String := none
  zimra_verification_url : Option String := none
  fiscal_pdf_attachment_id : Option Nat := none
  fiscalized_pdf : Option String := none
deriving DecidableEq

/-- Odoo's `account.move.is_invoice(include_receipts)` (host framework):
true for sale/purchase documents, including receipts when requested. -/
def is_invoice (includeReceipts : Bool) (d : Doc) : Bool :=
  d.move_type == .out_invoice || d.move_type == .out_refund ||
  d.move_type == .in_invoice || d.move_type == .in_refund ||
  (includeReceipts && (d.move_type == .out_receipt || d.move_type == .in_receipt))

/-- `AccountMove._should_fiscalize` (account_move.py lines 329-347). -/
def should_fiscalize (d : Doc) : Bool :=
  if !(is_invoice true d) then false
  else if d.zimra_status == .fiscalized || d.zimra_status == .exempted then false
  else if !(d.state == .posted) then false
  else if !(d.move_type == .out_invoice || d.move_type == .out_refund) then false
  else true

/-- The decimal digit character for a value below ten. -/
def digitChar (d : Nat) : Char := Char.ofNat (48 + d)

/-- Fuelled base-ten digit expansion, least significant digit first.
`fuel = n + 1` always suffices since the number of digits of `n` is at most
`n + 1`. -/
def natDigAux : Nat → Nat → List Char
  | 0, _ => []
  | fuel + 1, n =>
    if n < 10 then [digitChar n]
    else digitChar (n % 10) :: natDigAux fuel (n / 10)

/-- Decimal digit list of a natural number, most significant digit first. -/
def natDigits (n : Nat) : List Char := (natDigAux (n + 1) n).reverse

/-- Python fixed-precision float formatting `f"{q:.precf}"`: the sign of the
value followed by the digits of `|q|` rounded to `prec` decimal places
(so a negative value rounding to zero renders as `-0.00`, as in Python). -/
def fmtFixed (prec : Nat) (q : ℚ) : String :=
  let m : Nat := (round (|q| * (10 : ℚ) ^ prec)).toNat
  let ip := natDigits (m / 10 ^ prec)
  let fd := natDigits (m % 10 ^ prec)
  let fp := List.replicate (prec - fd.length) '0' ++ fd
  String.mk ((if q < 0 then ['-'] else []) ++ ip ++ '.' :: fp)

/-- Leading decimal digits of a character list. -/
def takeDigits (cs : List Char) : List Char := cs.takeWhile Char.isDigit

/-- Attempt to match the regex `KEY[:=]\s*(\d+)` at the head of `cs`,
returning the captured digit group. -/
def matchKeyNumAt (key : List Char) (cs : List Char) : Option (List Char) :=
  if key.isPrefixOf cs then
    match cs.drop key.length with
    | c :: rest =>
      if c == ':' || c == '=' then
        let ds := takeDigits (rest.dropWhile Char.isWhitespace)
        if ds.isEmpty then none else some ds
      else none
    | [] => none
  else none

/-- `re.search` for the pattern `KEY[:=]\s*(\d+)`: the first position where
the whole pattern matches (later positions are tried when the digit group
fails, as the regex engine does). -/
def searchKeyNum (key : List Char) : List Char → Option (List Char)
  | [] => none
  | c :: rest =>
    match matchKeyNumAt key (c :: rest) with
    | some ds => some ds
    | none => searchKeyNum key rest

/-- `AccountMove._parse_vat_field` (account_move.py lines 434-444). -/
def parse_vat_field (vat_string : Option String) : String × String :=
  let s := (vat_string.getD "").data
  let tin := match searchKeyNum "TIN".data s with
    | some ds => String.mk ds
    | none => ""
  let vat := match searchKeyNum "VAT".data s with
    | some ds => String.mk ds
    | none => ""
  (tin, vat)

/-- The structured address dictionary built by the payload builder. -/
structure Address where
  Province : String
  Street : String
  HouseNo : String
  City : String
deriving DecidableEq

/-- `AccountMove._get_customer_address` (account_move.py lines 539-549),
specialised to a present partner (the builder calls it only then). -/
def get_customer_address (p : Partner) : Address :=
  { Province := p.state_name.getD ""
    Street := p.street2.getD ""
    HouseNo := p.street.getD ""
    City := p.city.getD "" }

/-- The `BuyerContact` dictionary of the payload. -/
structure BuyerInfo where
  Name : String
  Tin : Option String
  VatNumber : Option String
  Address : Address
  Phone : String
  Email : String
deriving DecidableEq

/-- `AccountMove.__get_buyer_contact` (account_move.py lines 413-432):
empty dict (`none`) without a partner; otherwise TIN/VAT from
`company_registry` when truthy, else parsed out of the `vat` field. -/
def get_buyer_contact (d : Doc) : Option BuyerInfo :=
  match d.partner_id with
  | none => none
  | some p =>
    let tv : Option String × Option String :=
      if pyTruthyStr p.company_registry then (p.company_registry, p.vat)
      else
        let pr := parse_vat_field p.vat
        (some pr.1, some pr.2)
    some { Name := p.name
           Tin := tv.1
           VatNumber := tv.2
           Address := get_customer_address p
           Phone := p.phone.getD ""
           Email := p.email.getD "" }

/-- One entry of the payload's `LineItems` array. -/
structure LineItem where
  Description : String
  UnitAmount : String
  TaxCode : String
  ProductCode : String
  LineAmount : String
  DiscountAmount : String
  Quantity : String
deriving DecidableEq

/-- Lookup in the dict comprehension `{tm.odoo_tax_id.id: tm for tm in ...}`
(the last binding for a key wins, hence the reversal). -/
def tax_lookup (cfg : Config) (taxId : Nat) : Option TaxMapping :=
  cfg.tax_mapping_ids.reverse.find? (fun tm => tm.odoo_tax_id == taxId)

/-- Lookup in the currency-mapping dict comprehension. -/
def currency_lookup (cfg : Config) (curId : Nat) : Option CurrencyMapping :=
  cfg.currency_mapping_ids.reverse.find? (fun cm => cm.odoo_currency_id == curId)

/-- Python `str.rsplit(' ', 1)` when the string contains a space: the part
before the last space and the part after it. -/
def rsplitLastSpace (s : String) : Option (String × String) :=
  let rev := s.data.reverse
  if rev.any (fun c => c == ' ') then
    let after := rev.takeWhile (fun c => !(c == ' '))
    some (String.mk (rev.drop (after.length + 1)).reverse, String.mk after.reverse)
  else none

/-- The body of the `for line in self.invoice_line_ids` loop of
`AccountMove.__get_line_items` (account_move.py lines 446-519) for one
product line. -/
def mk_line_item (cfg : Config) (d : Doc) (line : InvoiceLine) : LineItem :=
  let tax_amount : ℚ :=
    if !line.tax_ids.isEmpty then line.total_included - line.total_excluded else 0
  let tax_code : String :=
    if !line.tax_ids.isEmpty then
      match line.tax_ids.find? (fun t => (tax_lookup cfg t).isSome) with
      | some t =>
        match tax_lookup cfg t with
        | some tm => tm.zimra_tax_code
        | none => ""
      | none => ""
    else ""
  let nh : String × String :=
    match line.product_id with
    | some p =>
      match rsplitLastSpace p.name with
      | some pair => pair
      | none => (p.name, "")
    | none => (pyOrStr line.name "Service", "")
  let discount_amount : ℚ :=
    if !(line.discount == 0) then line.price_unit * line.quantity * line.discount / 100
    else 0
  let isRefund := d.move_type == .out_refund
  let unit_amount : ℚ := if isRefund then |line.price_total| else line.price_total
  let line_amount : ℚ := if isRefund then |line.price_total| else line.price_total
  let quantity : ℚ := if isRefund then |line.quantity| else line.quantity
  let discount_amount : ℚ := if isRefund then |discount_amount| else discount_amount
  { Description := nh.1
    UnitAmount := if !(quantity == 0) then fmtFixed 3 |unit_amount / quantity| else "0.000"
    TaxCode := tax_code
    ProductCode := nh.2
    LineAmount := fmtFixed 2 |line_amount|
    DiscountAmount := fmtFixed 2 |discount_amount|
    Quantity := fmtFixed 3 |quantity| }

/-- `AccountMove.__get_line_items`: skip section/note lines, map the rest. -/
def get_line_items (cfg : Config) (d : Doc) : List LineItem :=
  (d.invoice_line_ids.filter
      (fun l => !(l.display_type == .line_section || l.display_type == .line_note))).map
    (mk_line_item cfg d)

/-- The JSON payload built by `_prepare_zimra_invoice_data`.  The credit-note
shape carries `CreditNoteId`/`CreditNoteNumber`/`OriginalInvoiceId`, the
invoice shape `InvoiceId`/`InvoiceNumber`/`IsDiscounted`; keys absent from a
shape are `none`. -/
structure Payload where
  CreditNoteId : Option String := none
  CreditNoteNumber : Option String := none
  OriginalInvoiceId : Option String := none
  InvoiceId : Option String := none
  InvoiceNumber : Option String := none
  Reference : String := ""
  IsDiscounted : Option Bool := none
  IsTaxInclusive : Bool := true
  BuyerContact : Option BuyerInfo := none
  Date : String := ""
  LineItems : List LineItem := []
  SubTotal : String := ""
  TotalTax : String := ""
  Total : String := ""
  CurrencyCode : String := ""
  IsRetry : Bool := false
deriving DecidableEq

/-- `AccountMove._prepare_zimra_invoice_data` (account_move.py lines 349-411).
`nowIso` stands for the current date substituted when `invoice_date` is unset
(dates are carried as their ISO rendering, the form `__create_timestamp`
returns). -/
def prepare_zimra_invoice_data (cfg : Config) (nowIso : String) (d : Doc) : Payload :=
  let currency_code : String :=
    match currency_lookup cfg d.currency_id with
    | some cm => cm.zimra_currency_code
    | none => "USD"
  let buyer_contact := get_buyer_contact d
  let line_items := get_line_items cfg d
  let has_discount := d.invoice_line_ids.any (fun l => decide (l.discount > 0))
  let timestamp := d.invoice_date.getD nowIso
  let is_credit_note := d.move_type == .out_refund
  if is_credit_note then
    { CreditNoteId := some d.name
      CreditNoteNumber := some d.name
      OriginalInvoiceId := some (d.reversed_entry_name.getD "")
      Reference := pyOrStr d.ref ""
      IsTaxInclusive := true
      BuyerContact := buyer_contact
      Date := timestamp
      LineItems := line_items
      SubTotal := fmtFixed 2 |d.amount_untaxed|
      TotalTax := fmtFixed 2 |d.amount_tax|
      Total := fmtFixed 2 |d.amount_total|
      CurrencyCode := currency_code
      IsRetry := decide (d.zimra_retry_count > 0) }
  else
    { InvoiceId := some d.name
      InvoiceNumber := some d.name
      Reference := pyOrStr d.ref ""
      IsDiscounted := some has_discount
      IsTaxInclusive := true
      BuyerContact := buyer_contact
      Date := timestamp
      LineItems := line_items
      SubTotal := fmtFixed 2 d.amount_untaxed
      TotalTax := fmtFixed 2 d.amount_tax
      Total := fmtFixed 2 d.amount_total
      CurrencyCode := currency_code
      IsRetry := decide (d.zimra_retry_count > 0) }

/-- Python `str.strip().lower()`. -/
def pyStripLower (s : String) : String :=
  let cs := s.data.dropWhile Char.isWhitespace
  String.mk (((cs.reverse.dropWhile Char.isWhitespace).reverse).map Char.toLower)

/-- Substring containment test (Python `needle in hay`). -/
def containsSub (needle : List Char) : List Char → Bool
  | [] => needle.isEmpty
  | c :: t => needle.isPrefixOf (c :: t) || containsSub needle t

/-- Endpoint selection of `_send_to_zimra` (account_move.py lines 229-239). -/
def zimra_endpoint (p : Payload) : String :=
  let invoice_id := pyStripLower (p.InvoiceId.getD "")
  if pyTruthyStr p.CreditNoteId then "/creditnote"
  else if containsSub "refund".data invoice_id.data then "/creditnote"
  else "/invoice"

/-- Exception oracle for the `try` block of `_send_to_zimra`: no exception,
an exception during `_prepare_zimra_invoice_data` (before the audit row is
created), or an exception raised by the transport call (after it). -/
inductive Exc
  | noExc
  | atBuild
  | atTransport
deriving DecidableEq

/-- The ambient state an invocation runs in: the company's active
`zimra.config` search result, the transport response, the exception oracle,
and the clock. -/
structure Env where
  config : Option Config
  resp : RespData := none
  exc : Exc := .noExc
  now : Nat := 0
  nowIso : String := ""
  excMsg : String := ""
deriving DecidableEq

/-- Observables of one `_send_to_zimra` invocation: the document afterwards,
the returned boolean, the number of `zimra.invoice` audit rows created, the
number of transport calls made and the endpoint used. -/
structure SubmitResult where
  doc : Doc
  ret : Bool
  auditRows : Nat
  networkCalls : Nat
  endpoint : Option String
deriving DecidableEq

/-- `AccountMove._send_to_zimra` (account_move.py lines 183-318). -/
def send_to_zimra (env : Env) (d : Doc) : SubmitResult :=
  match env.config with
  | none =>
    { doc := { d with
        zimra_status := .failed,
        zimra_error := some "No active FiscalHarmony configuration found" },
      ret := false, auditRows := 0, networkCalls := 0, endpoint := none }
  | some cfg =>
    if should_fiscalize d = false then
      { doc := { d with zimra_status := .exempted },
        ret := true, auditRows := 0, networkCalls := 0, endpoint := none }
    else
      match env.exc with
      | .atBuild =>
        { doc := { d with zimra_status := .failed, zimra_error := some env.excMsg },
          ret := false, auditRows := 0, networkCalls := 0, endpoint := none }
      | .atTransport =>
        let invoice_data := prepare_zimra_invoice_data cfg env.nowIso d
        let d1 := { d with
          zimra_sent_date := some env.now,
          zimra_retry_count := d.zimra_retry_count + 1 }
        { doc := { d1 with zimra_status := .failed, zimra_error := some env.excMsg },
          ret := false, auditRows := 1, networkCalls := 1,
          endpoint := some (zimra_endpoint invoice_data) }
      | .noExc =>
        let invoice_data := prepare_zimra_invoice_data cfg env.nowIso d
        let d1 := { d with
          zimra_sent_date := some env.now,
          zimra_retry_count := d.zimra_retry_count + 1 }
        let d2 := { d1 with
          zimra_response :=
            some (if pyTruthyResp env.resp then dumpsResp env.resp else "") }
        if is_fiscalization_successful env.resp then
          let response := headItem env.resp
          { doc := { d2 with
              zimra_status := .fiscalized,
              zimra_fiscal_number :=
                some (pyStr response.InvoiceNumber ++ "/" ++ pyStr response.FiscalDay),
              zimra_fiscalized_date := some env.now,
              zimra_qr_code := response.QrData,
              zimra_verification_url := response.verification_url,
              fiscalized_pdf := response.FiscalInvoicePdf,
              zimra_error := none },
            ret := true, auditRows := 1, networkCalls := 1,
            endpoint := some (zimra_endpoint invoice_data) }
        else
          let response := headItem env.resp
          { doc := { d2 with
              zimra_status := .failed,
              zimra_fiscal_number :=
                (match response.fiscal_number with
                 | some v => some v
                 | none => response.RequestId),
              zimra_error := response.Error },
            ret := false, auditRows := 1, networkCalls := 1,
            endpoint := some (zimra_endpoint invoice_data) }

/-- `AccountMove.action_fiscalize_invoice` (account_move.py lines 41-94):
refuse non-invoices and already fiscalized/sent documents, otherwise submit.
The boolean records whether `_send_to_zimra` was invoked. -/
def action_fiscalize_invoice (env : Env) (d : Doc) : Doc × Bool :=
  if !(is_invoice false d) then (d, false)
  else if d.zimra_status == .fiscalized || d.zimra_status == .sent then (d, false)
  else ((send_to_zimra env d).doc, true)

/-- `AccountMove.action_retry_fiscalization` (account_move.py lines 667-685). -/
def action_retry_fiscalization (env : Env) (d : Doc) : Doc × Bool :=
  if !(d.zimra_status == .failed) then (d, false)
  else
    action_fiscalize_invoice env
      { d with zimra_status := .pending, zimra_error := none }

/-- `AccountMove.action_post` (account_move.py lines 551-569).  The host
framework's `super().action_post()` posts a draft entry and raises on any
other state, so the hook body runs only when the document was draft (modelled
as the identity otherwise).  The boolean records whether `_send_to_zimra` was
invoked. -/
def action_post (env : Env) (d0 : Doc) : Doc × Bool :=
  if !(d0.state == .draft) then (d0, false)
  else
    let d := { d0 with state := MoveState.posted }
    if should_fiscalize d then
      match env.config with
      | some cfg =>
        if cfg.auto_fiscalize == false && d.zimra_status == .pending then
          ((send_to_zimra env d).doc, true)
        else (d, false)
      | none => (d, false)
    else (d, false)

/-- `AccountMove.button_cancel` (account_move.py lines 571-581): the host
cancels the entry, then a fiscalized document is marked `cancelled`. -/
def button_cancel (d0 : Doc) : Doc :=
  let d := { d0 with state := MoveState.cancel }
  if d.zimra_status == .fiscalized then { d with zimra_status := .cancelled } else d

/-- `AccountMove.button_draft` (account_move.py lines 583-603): the host
reverts the entry to draft, then a fiscalized/sent document has every
fiscalization artifact cleared and its status reset to pending. -/
def button_draft (d0 : Doc) : Doc :=
  let d := { d0 with state := MoveState.draft }
  if d.zimra_status == .fiscalized || d.zimra_status == .sent then
    { d with
      zimra_status := .pending,
      zimra_fiscal_number := none,
      zimra_response := none,
      zimra_error := none,
      zimra_sent_date := none,
      zimra_fiscalized_date := none,
      zimra_qr_code := none,
      zimra_verification_url := none,
      fiscal_pdf_attachment_id := none,
      fiscalized_pdf := none }
  else d

/-- The selection domain of the retry cron (account_move.py lines 702-705):
`zimra_status = 'failed'` and `zimra_retry_count < 3`. -/
def cron_selects (d : Doc) : Bool :=
  d.zimra_status == .failed && decide (d.zimra_retry_count < 3)

/-- The per-document body of `cron_retry_failed_fiscalization`: a selected
document is submitted (any exception is caught and logged), others are never
touched. -/
def cron_step (p : Doc × Env) : Doc :=
  if cron_selects p.1 then (send_to_zimra p.2 p.1).doc else p.1

/-- `AccountMove.cron_retry_failed_fiscalization` (account_move.py lines
699-712) over a batch of documents, each paired with its ambient state. -/
def cron_retry_failed_fiscalization (batch : List (Doc × Env)) : List Doc :=
  batch.map cron_step

/-- The connector operations a document can undergo (the manual submit
action, the manual retry action, one cron sweep over this document, posting,
cancelling, and reverting to draft). -/
inductive Op
  | submit
  | retry
  | cronRetry
  | post
  | cancel
  | draftRevert
deriving DecidableEq

/-- One operation applied to a document under an ambient state. -/
def op_step (o : Op) (env : Env) (d : Doc) : Doc :=
  match o with
  | .submit => (action_fiscalize_invoice env d).1
  | .retry => (action_retry_fiscalization env d).1
  | .cronRetry => cron_step (d, env)
  | .post => (action_post env d).1
  | .cancel => button_cancel d
  | .draftRevert => button_draft d

/-- A sequence of connector operations run left to right. -/
def run_ops : List (Op × Env) → Doc → Doc
  | [], d => d
  | (o, e) :: rest, d => run_ops rest (op_step o e d)

/-- A persisted `zimra.tax.mapping` record, with the fields its constraint
handlers read. -/
structure TaxMappingRecord where
  id : Nat
  config_id : Nat
  odoo_tax_id : Nat
  zimra_tax_rate : ℚ := 0
deriving DecidableEq

/-- The client-action dictionary returned by the duplicate handler. -/
structure NotificationAction where
  action_type : String
  tag : String
  title : String
  message : String
  params_type : String
  sticky : Bool
deriving DecidableEq

/-- The exact dictionary `_check_unique_tax_mapping` returns on a duplicate
(zimra_tax_mapping.py lines 66-75). -/
def duplicate_tax_notice : NotificationAction :=
  { action_type := "ir.actions.client"
    tag := "display_notification"
    title := "Taxes Already Synced"
    message := "Taxes Already Synced for this device"
    params_type := "success"
    sticky := false }

/-- The search of `_check_unique_tax_mapping`: another persisted record with
the same `(config_id, odoo_tax_id)` pair. -/
def has_duplicate (db : List TaxMappingRecord) (r : TaxMappingRecord) : Bool :=
  db.any (fun e =>
    e.config_id == r.config_id && e.odoo_tax_id == r.odoo_tax_id && !(e.id == r.id))

/-- `ZimraTaxMapping._check_unique_tax_mapping` (zimra_tax_mapping.py lines
57-75).  A constraint handler either raises a `ValidationError` (the `error`
case, which blocks the save) or returns a value Odoo discards; this handler
returns the notification dictionary on the first duplicate and never raises. -/
def check_unique_tax_mapping (db : List TaxMappingRecord) :
    List TaxMappingRecord → Except String (Option NotificationAction)
  | [] => .ok none
  | r :: rest =>
    if has_duplicate db r then .ok (some duplicate_tax_notice)
    else check_unique_tax_mapping db rest

/-- `ZimraTaxMapping._check_tax_rate` (zimra_tax_mapping.py lines 51-55):
this sibling constraint does raise a `ValidationError` out of range. -/
def check_tax_rate : List TaxMappingRecord → Except String Unit
  | [] => .ok ()
  | r :: rest =>
    if r.zimra_tax_rate < 0 || r.zimra_tax_rate > 100 then
      .error "Tax rate must be between 0 and 100%"
    else check_tax_rate rest

/-! ### Derived notions used by the verification conditions -/

/-- The spec's success condition, stated in its own words: "success iff the
response is a non-empty list whose first element's `Error` field is
empty/absent". -/
def response_success_spec (resp : RespData) : Prop :=
  ∃ r rest, resp = some (r :: rest) ∧ (r.Error = none ∨ r.Error = some "")

/-- A response that carries no stray identifiers on the failure path:
either it is interpreted as success, or its first element (the only element
`_send_to_zimra` reads) has no `fiscal_number` and no `RequestId` value.
A successful response is unrestricted and may carry a `RequestId`, as the
spec's response schema always does. -/
def respCleanOnFailure (resp : RespData) : Bool :=
  is_fiscalization_successful resp ||
  ((headItem resp).fiscal_number == none && (headItem resp).RequestId == none)

/-- An ambient state in which a configuration is present, no exception
occurs and a failure response carries no stray identifiers. -/
def cleanEnv (e : Env) : Bool :=
  e.config.isSome && (e.exc == Exc.noExc) && respCleanOnFailure e.resp

/-- The invariant relating a set (truthy) `zimra_fiscal_number` to the
status field. -/
def fiscal_number_invariant (d : Doc) : Bool :=
  !(pyTruthyStr d.zimra_fiscal_number) ||
  (d.zimra_status == ZStatus.fiscalized || d.zimra_status == ZStatus.cancelled ||
   d.zimra_status == ZStatus.exempted)

/-- A string made of decimal digits and dots only, hence without a minus
sign: the rendering of a non-negative number. -/
def nonNegNumericString (s : String) : Bool :=
  !(s.data.isEmpty) && s.data.all (fun c => c.isDigit || c == '.')

/-! ### Helper lemmas -/

lemma is_fiscalization_successful_iff (resp : RespData) :
    is_fiscalization_successful resp = true ↔ response_success_spec resp := by
  cases resp with
  | none =>
    simp [is_fiscalization_successful, response_success_spec]
  | some xs =>
    cases xs with
    | nil => simp [is_fiscalization_successful, response_success_spec]
    | cons r rest =>
      simp only [is_fiscalization_successful, response_success_spec]
      constructor
      · intro h
        refine ⟨r, rest, rfl, ?_⟩
        cases herr : r.Error with
        | none => exact Or.inl rfl
        | some s =>
          rw [herr] at h
          simp [pyTruthyStr] at h
          subst h
          exact Or.inr rfl
      · rintro ⟨r2, rest2, heq, herr⟩
        obtain ⟨hr, hrest⟩ : r2 = r ∧ rest2 = rest := by
          constructor <;> injection heq with h2 <;> cases h2 <;> rfl
        subst hr
        rcases herr with h | h <;> simp [pyTruthyStr, h]

lemma headItem_clean_of_failure (resp : RespData)
    (h : respCleanOnFailure resp = true)
    (hs : is_fiscalization_successful resp = false) :
    (headItem resp).fiscal_number = none ∧ (headItem resp).RequestId = none := by
  simp only [respCleanOnFailure, hs, Bool.false_or, Bool.and_eq_true,
    beq_iff_eq] at h
  exact h

/-! ### C3: no-configuration short circuit -/

/-- C3: when the company has no active configuration, `_send_to_zimra` sets
the status to failed, records the configuration-missing error, makes no
transport call and creates no audit-log row. -/
theorem c3_no_config_short_circuit (env : Env) (d : Doc) (h : env.config = none) :
    (send_to_zimra env d).doc.zimra_status = ZStatus.failed ∧
    (send_to_zimra env d).doc.zimra_error =
      some "No active FiscalHarmony configuration found" ∧
    (send_to_zimra env d).networkCalls = 0 ∧
    (send_to_zimra env d).auditRows = 0 := by
  simp [send_to_zimra, h]

/-- Witness for C3 at a concrete document and empty configuration search. -/
theorem c3_witness :
    (send_to_zimra { config := none } { name := "INV-1" }).doc.zimra_status =
      ZStatus.failed ∧
    (send_to_zimra { config := none } { name := "INV-1" }).doc.zimra_error =
      some "No active FiscalHarmony configuration found" ∧
    (send_to_zimra { config := none } { name := "INV-1" }).networkCalls = 0 ∧
    (send_to_zimra { config := none } { name := "INV-1" }).auditRows = 0 :=
  c3_no_config_short_circuit { config := none } { name := "INV-1" } rfl

/-! ### C4: audit rows per invocation -/

/-- C4 counterexample: with an active configuration but an ineligible
document (still draft), `_send_to_zimra` takes the exempted path and creates
zero audit rows, while the claim asserts exactly one row on that path. -/
theorem c4_counterexample :
    ({ config := some { auto_fiscalize := false } } : Env).config.isSome = true ∧
    (send_to_zimra { config := some { auto_fiscalize := false } }
        { name := "INV-2", state := MoveState.draft }).doc.zimra_status =
      ZStatus.exempted ∧
    (send_to_zimra { config := some { auto_fiscalize := false } }
        { name := "INV-2", state := MoveState.draft }).auditRows = 0 :=
  ⟨rfl, by decide, by decide⟩

/-- C4 amended: an invocation of `_send_to_zimra` creates exactly one
audit-log row iff a configuration is present, the document is eligible, and
no exception fires during payload building (success, failure and
transport-exception paths); it creates zero rows on the no-configuration
short-circuit, the ineligible/exempted path, and the build-exception path. -/
theorem c4_amended_audit_rows (env : Env) (d : Doc) :
    (send_to_zimra env d).auditRows =
      (if env.config.isSome && should_fiscalize d && !(env.exc == Exc.atBuild)
       then 1 else 0) := by
  cases hcfg : env.config with
  | none => simp [send_to_zimra, hcfg]
  | some cfg =>
    by_cases hf : should_fiscalize d = false
    · simp [send_to_zimra, hcfg, hf]
    · cases hexc : env.exc with
      | noExc =>
        by_cases hs : is_fiscalization_successful env.resp <;>
          simp [send_to_zimra, hcfg, hf, hexc, hs, Bool.not_eq_false]
      | atBuild => simp [send_to_zimra, hcfg, hf, hexc, Bool.not_eq_false]
      | atTransport => simp [send_to_zimra, hcfg, hf, hexc, Bool.not_eq_false]

/-! ### C2: response interpretation on the submission path -/

/-- C2: on a submission that reaches the transport (configuration present,
document eligible, no exception), the invocation succeeds iff the response
is a non-empty list whose first element's `Error` is empty or absent; on
success it sets the status to fiscalized, sets the fiscal number to
`InvoiceNumber ++ "/" ++ FiscalDay`, stamps the fiscalized date and clears
the error; on failure it sets the status to failed and stores the first
element's error message. -/
theorem c2_response_interpretation (env : Env) (d : Doc)
    (hc : env.config.isSome = true) (he : should_fiscalize d = true)
    (hx : env.exc = Exc.noExc) :
    ((send_to_zimra env d).ret = true ↔ response_success_spec env.resp) ∧
    (is_fiscalization_successful env.resp = true →
      (send_to_zimra env d).doc.zimra_status = ZStatus.fiscalized ∧
      (send_to_zimra env d).doc.zimra_fiscal_number =
        some (pyStr (headItem env.resp).InvoiceNumber ++ "/" ++
              pyStr (headItem env.resp).FiscalDay) ∧
      (send_to_zimra env d).doc.zimra_fiscalized_date = some env.now ∧
      (send_to_zimra env d).doc.zimra_error = none) ∧
    (is_fiscalization_successful env.resp = false →
      (send_to_zimra env d).doc.zimra_status = ZStatus.failed ∧
      (send_to_zimra env d).doc.zimra_error = (headItem env.resp).Error) := by
  obtain ⟨cfg, hcfg⟩ := Option.isSome_iff_exists.mp hc
  rw [← is_fiscalization_successful_iff]
  by_cases hs : is_fiscalization_successful env.resp = true
  · simp [send_to_zimra, hcfg, he, hx, hs]
  · simp only [Bool.not_eq_true] at hs
    simp [send_to_zimra, hcfg, he, hx, hs]

/-- Witness for C2: the spec's success scenario.  The mock transport returns
a single element with FiscalDay 12, InvoiceNumber INV-001 and empty Error;
the document ends fiscalized with fiscal number `INV-001/12`. -/
theorem c2_witness :
    (send_to_zimra
        { config := some { auto_fiscalize := false },
          resp := some [{ FiscalDay := some "12", InvoiceNumber := some "INV-001",
                          Error := some "" }],
          now := 5 }
        { name := "INV-001", move_type := MoveType.out_invoice,
          state := MoveState.posted }).doc.zimra_status = ZStatus.fiscalized ∧
    (send_to_zimra
        { config := some { auto_fiscalize := false },
          resp := some [{ FiscalDay := some "12", InvoiceNumber := some "INV-001",
                          Error := some "" }],
          now := 5 }
        { name := "INV-001", move_type := MoveType.out_invoice,
          state := MoveState.posted }).doc.zimra_fiscal_number =
      some "INV-001/12" := by
  have h := (c2_response_interpretation
    { config := some { auto_fiscalize := false },
      resp := some [{ FiscalDay := some "12", InvoiceNumber := some "INV-001",
                      Error := some "" }],
      now := 5 }
    { name := "INV-001", move_type := MoveType.out_invoice,
      state := MoveState.posted } rfl (by decide) rfl).2.1 (by decide)
  exact ⟨h.1, by rw [h.2.1]; rfl⟩

/-! ### C5: auto-fiscalization on posting -/

/-- C5 counterexample: an eligible, pending document whose company's active
configuration has `auto_fiscalize = True` (the spec's reading of "enables
auto-fiscalization") is NOT submitted by the posting hook, because
`action_post` searches for configurations with `auto_fiscalize = False`. -/
theorem c5_counterexample :
    spec_enables_auto_fiscalization { auto_fiscalize := true } = true ∧
    should_fiscalize
      { name := "INV-3", move_type := MoveType.out_invoice,
        state := MoveState.posted, zimra_status := ZStatus.pending } = true ∧
    (action_post
        { config := some { auto_fiscalize := true },
          resp := some [{ FiscalDay := some "12", InvoiceNumber := some "INV-3",
                          Error := some "" }] }
        { name := "INV-3", move_type := MoveType.out_invoice,
          state := MoveState.draft, zimra_status := ZStatus.pending }).2 = false :=
  ⟨rfl, by decide, by decide⟩

/-- C5 amended: the posting hook invokes `_send_to_zimra` exactly when the
posted document is eligible and still pending and the company has an active
configuration whose `auto_fiscalize` flag is False — the polarity of the
flag is inverted with respect to "configuration enables auto-fiscalization". -/
theorem c5_amended_post_condition (env : Env) (d : Doc) :
    (action_post env d).2 =
      ((d.state == MoveState.draft) &&
       should_fiscalize { d with state := MoveState.posted } &&
       (match env.config with
        | some cfg => !cfg.auto_fiscalize
        | none => false) &&
       (d.zimra_status == ZStatus.pending)) := by
  by_cases hs : d.state = MoveState.draft
  · cases hcfg : env.config with
    | none =>
      cases hf : should_fiscalize { d with state := MoveState.posted } <;>
        simp [action_post, hs, hcfg, hf]
    | some cfg =>
      cases hf : should_fiscalize { d with state := MoveState.posted } with
      | false => simp [action_post, hs, hcfg, hf]
      | true =>
        cases hauto : cfg.auto_fiscalize with
        | true => simp [action_post, hs, hcfg, hf, hauto]
        | false =>
          cases hp : d.zimra_status == ZStatus.pending <;>
            simp [action_post, hs, hcfg, hf, hauto, hp]
  · have hb : (d.state == MoveState.draft) = false := by simp [hs]
    simp [action_post, hb, hs]

/-! ### C6: revert to draft -/

/-- C6 counterexample: reverting a FAILED document to draft does not reset
its status to pending and does not clear its artifacts — the clearing branch
only runs for fiscalized/sent documents. -/
theorem c6_counterexample :
    (button_draft
        { name := "INV-4", state := MoveState.posted,
          zimra_status := ZStatus.failed, zimra_error := some "Invalid TIN",
          zimra_fiscal_number := some "REQ-9" }).zimra_status = ZStatus.failed ∧
    (button_draft
        { name := "INV-4", state := MoveState.posted,
          zimra_status := ZStatus.failed, zimra_error := some "Invalid TIN",
          zimra_fiscal_number := some "REQ-9" }).zimra_error = some "Invalid TIN" ∧
    (button_draft
        { name := "INV-4", state := MoveState.posted,
          zimra_status := ZStatus.failed, zimra_error := some "Invalid TIN",
          zimra_fiscal_number := some "REQ-9" }).zimra_fiscal_number =
      some "REQ-9" := by
  exact ⟨by decide, by decide, by decide⟩

/-- C6 amended: reverting a document whose status is fiscalized or sent to
draft clears every fiscalization artifact (fiscal number, QR code,
verification URL, PDF data, PDF attachment, error, response, sent and
fiscalized dates) and resets the status to pending; other statuses are left
untouched by the clearing branch. -/
theorem c6_amended_draft_clears (d : Doc)
    (h : d.zimra_status = ZStatus.fiscalized ∨ d.zimra_status = ZStatus.sent) :
    (button_draft d).zimra_status = ZStatus.pending ∧
    (button_draft d).zimra_fiscal_number = none ∧
    (button_draft d).zimra_qr_code = none ∧
    (button_draft d).zimra_verification_url = none ∧
    (button_draft d).fiscalized_pdf = none ∧
    (button_draft d).fiscal_pdf_attachment_id = none ∧
    (button_draft d).zimra_error = none ∧
    (button_draft d).zimra_response = none ∧
    (button_draft d).zimra_sent_date = none ∧
    (button_draft d).zimra_fiscalized_date = none ∧
    (button_draft d).state = MoveState.draft := by
  rcases h with h | h <;> simp [button_draft, h]

/-- Witness for C6 at a concrete fiscalized document. -/
theorem c6_witness :
    (button_draft
        { name := "INV-5", state := MoveState.posted,
          zimra_status := ZStatus.fiscalized,
          zimra_fiscal_number := some "INV-5/12",
          zimra_qr_code := some "QR" }).zimra_status = ZStatus.pending ∧
    (button_draft
        { name := "INV-5", state := MoveState.posted,
          zimra_status := ZStatus.fiscalized,
          zimra_fiscal_number := some "INV-5/12",
          zimra_qr_code := some "QR" }).zimra_fiscal_number = none :=
  ⟨(c6_amended_draft_clears
      { name := "INV-5", state := MoveState.posted,
        zimra_status := ZStatus.fiscalized,
        zimra_fiscal_number := some "INV-5/12",
        zimra_qr_code := some "QR" } (Or.inl rfl)).1,
   (c6_amended_draft_clears
      { name := "INV-5", state := MoveState.posted,
        zimra_status := ZStatus.fiscalized,
        zimra_fiscal_number := some "INV-5/12",
        zimra_qr_code := some "QR" } (Or.inl rfl)).2.1⟩

/-! ### C7: the retry cron -/

/-- C7: the retry cron processes every batch element independently: the
result list has the same length, and the i-th result is obtained from the
i-th input alone — submitted through `_send_to_zimra` exactly when its
status is failed and its retry count is below three, untouched otherwise.
In particular an exception affecting one document (its own `Env`) cannot
change how any other element of the batch is processed. -/
theorem c7_cron_selection (batch : List (Doc × Env)) :
    (cron_retry_failed_fiscalization batch).length = batch.length ∧
    ∀ i : Nat,
      (cron_retry_failed_fiscalization batch)[i]? =
        (batch[i]?).map (fun p =>
          if p.1.zimra_status == ZStatus.failed && decide (p.1.zimra_retry_count < 3)
          then (send_to_zimra p.2 p.1).doc
          else p.1) := by
  constructor
  · simp [cron_retry_failed_fiscalization]
  · intro i
    rw [cron_retry_failed_fiscalization, List.getElem?_map]
    cases batch[i]? with
    | none => rfl
    | some p => rfl

/-! ### C8: retry counter -/

/-- C8: one invocation of `_send_to_zimra` never decreases the retry count
and raises it by at most one; every invocation that actually attempts a
submission (creates the audit row / makes the transport call) increments it
by exactly one. -/
theorem c8_retry_count (env : Env) (d : Doc) :
    ((send_to_zimra env d).doc.zimra_retry_count = d.zimra_retry_count ∨
     (send_to_zimra env d).doc.zimra_retry_count = d.zimra_retry_count + 1) ∧
    ((send_to_zimra env d).auditRows = 1 ∨ (send_to_zimra env d).networkCalls = 1 →
      (send_to_zimra env d).doc.zimra_retry_count = d.zimra_retry_count + 1) ∧
    d.zimra_retry_count ≤ (send_to_zimra env d).doc.zimra_retry_count := by
  cases hcfg : env.config with
  | none => simp [send_to_zimra, hcfg]
  | some cfg =>
    by_cases hf : should_fiscalize d = false
    · simp [send_to_zimra, hcfg, hf]
    · cases hexc : env.exc with
      | noExc =>
        by_cases hs : is_fiscalization_successful env.resp <;>
          simp [send_to_zimra, hcfg, hf, hexc, hs]
      | atBuild => simp [send_to_zimra, hcfg, hf, hexc]
      | atTransport => simp [send_to_zimra, hcfg, hf, hexc]

/-- Witness for C8: the spec's rejection scenario.  A first submission
attempt whose transport response is a single element with Error
"Invalid TIN" leaves the document failed, with that error stored and
`zimra_retry_count = 1`. -/
theorem c8_witness :
    (send_to_zimra
        { config := some { auto_fiscalize := false },
          resp := some [{ Error := some "Invalid TIN" }] }
        { name := "INV-6", move_type := MoveType.out_invoice,
          state := MoveState.posted }).doc.zimra_retry_count = 1 ∧
    (send_to_zimra
        { config := some { auto_fiscalize := false },
          resp := some [{ Error := some "Invalid TIN" }] }
        { name := "INV-6", move_type := MoveType.out_invoice,
          state := MoveState.posted }).doc.zimra_status = ZStatus.failed ∧
    (send_to_zimra
        { config := some { auto_fiscalize := false },
          resp := some [{ Error := some "Invalid TIN" }] }
        { name := "INV-6", move_type := MoveType.out_invoice,
          state := MoveState.posted }).doc.zimra_error = some "Invalid TIN" := by
  have h := (c8_retry_count
    { config := some { auto_fiscalize := false },
      resp := some [{ Error := some "Invalid TIN" }] }
    { name := "INV-6", move_type := MoveType.out_invoice,
      state := MoveState.posted }).2.1 (Or.inl (by decide))
  exact ⟨by simpa using h, by decide, by decide⟩

/-! ### C10: the duplicate tax-mapping constraint handler -/

/-- C10: `_check_unique_tax_mapping` never raises a `ValidationError` (its
result is always `ok`), and whenever some record being checked shares its
`(config_id, odoo_tax_id)` pair with another persisted record it returns the
"Taxes Already Synced" notification dictionary instead — so the duplicate
save is not blocked. -/
theorem c10_duplicate_handler (db recs : List TaxMappingRecord) :
    (∃ o, check_unique_tax_mapping db recs = Except.ok o) ∧
    ((∃ r ∈ recs, has_duplicate db r = true) →
      check_unique_tax_mapping db recs = Except.ok (some duplicate_tax_notice)) := by
  constructor
  · induction recs with
    | nil => exact ⟨none, rfl⟩
    | cons r rest ih =>
      by_cases h : has_duplicate db r
      · exact ⟨some duplicate_tax_notice, by simp [check_unique_tax_mapping, h]⟩
      · obtain ⟨o, ho⟩ := ih
        exact ⟨o, by simp [check_unique_tax_mapping, h, ho]⟩
  · intro hex
    induction recs with
    | nil => simp at hex
    | cons a rest ih =>
      by_cases h : has_duplicate db a
      · simp [check_unique_tax_mapping, h]
      · obtain ⟨r, hr, hd⟩ := hex
        rcases List.mem_cons.mp hr with heq | hmem
        · subst heq; exact absurd hd (by simp [h])
        · have := ih ⟨r, hmem, hd⟩
          simpa [check_unique_tax_mapping, h] using this

/-- Witness for C10: a duplicate `(config_id, odoo_tax_id)` pair yields the
notification, not an error. -/
theorem c10_witness :
    check_unique_tax_mapping
        [{ id := 1, config_id := 5, odoo_tax_id := 9 }]
        [{ id := 2, config_id := 5, odoo_tax_id := 9 }] =
      Except.ok (some duplicate_tax_notice) :=
  (c10_duplicate_handler
      [{ id := 1, config_id := 5, odoo_tax_id := 9 }]
      [{ id := 2, config_id := 5, odoo_tax_id := 9 }]).2
    ⟨{ id := 2, config_id := 5, odoo_tax_id := 9 },
     List.mem_cons_self _ _, by decide⟩

/-! ### C9: credit-note payloads carry only non-negative numeric strings -/

lemma digitChar_isDigit (d : Nat) (h : d < 10) : (digitChar d).isDigit = true := by
  interval_cases d <;> decide

lemma natDigAux_digits (fuel n : Nat) :
    ∀ c ∈ natDigAux fuel n, c.isDigit = true := by
  induction fuel generalizing n with
  | zero => intro c hc; simp [natDigAux] at hc
  | succ f ih =>
    intro c hc
    by_cases h : n < 10
    · simp [natDigAux, h] at hc
      subst hc
      exact digitChar_isDigit n h
    · simp [natDigAux, h] at hc
      rcases hc with hc | hc
      · subst hc
        exact digitChar_isDigit _ (Nat.mod_lt n (by norm_num))
      · exact ih (n / 10) c hc

lemma natDigAux_ne_nil (f n : Nat) : natDigAux (f + 1) n ≠ [] := by
  by_cases h : n < 10 <;> simp [natDigAux, h]

lemma natDigits_digits (n : Nat) : ∀ c ∈ natDigits n, c.isDigit = true := by
  intro c hc
  exact natDigAux_digits (n + 1) n c (List.mem_reverse.mp hc)

lemma natDigits_ne_nil (n : Nat) : natDigits n ≠ [] := by
  intro h
  exact natDigAux_ne_nil n n (List.reverse_eq_nil_iff.mp h)

lemma fmtFixed_nonNeg (prec : Nat) (q : ℚ) (h : 0 ≤ q) :
    nonNegNumericString (fmtFixed prec q) = true := by
  have hq : ¬ q < 0 := not_lt.mpr h
  simp only [fmtFixed, hq, if_false, nonNegNumericString, List.nil_append,
    Bool.and_eq_true, Bool.not_eq_true]
  constructor
  · have hne := natDigits_ne_nil ((round (|q| * (10 : ℚ) ^ prec)).toNat / 10 ^ prec)
    cases hd : natDigits ((round (|q| * (10 : ℚ) ^ prec)).toNat / 10 ^ prec) with
    | nil => exact absurd hd hne
    | cons a t => simp [hd]
  · rw [List.all_eq_true]
    intro c hc
    rcases List.mem_append.mp hc with hc | hc
    · simp [natDigits_digits _ c hc]
    · rcases List.mem_cons.mp hc with hc | hc
      · simp [hc]
      · rcases List.mem_append.mp hc with hc | hc
        · simp [List.eq_of_mem_replicate hc]
        · simp [natDigits_digits _ c hc]

/-- C9: every numeric string of a credit-note payload is non-negative
(consists of digits and dots, without a minus sign): the document totals
`SubTotal`, `TotalTax`, `Total` and every line item's `UnitAmount`,
`LineAmount`, `DiscountAmount` and `Quantity`, whatever the signs of the
underlying amounts, quantities, prices and discounts. -/
theorem c9_credit_note_non_negative (cfg : Config) (nowIso : String) (d : Doc)
    (h : d.move_type = MoveType.out_refund) :
    nonNegNumericString (prepare_zimra_invoice_data cfg nowIso d).SubTotal = true ∧
    nonNegNumericString (prepare_zimra_invoice_data cfg nowIso d).TotalTax = true ∧
    nonNegNumericString (prepare_zimra_invoice_data cfg nowIso d).Total = true ∧
    ∀ li ∈ (prepare_zimra_invoice_data cfg nowIso d).LineItems,
      nonNegNumericString li.UnitAmount = true ∧
      nonNegNumericString li.LineAmount = true ∧
      nonNegNumericString li.DiscountAmount = true ∧
      nonNegNumericString li.Quantity = true := by
  have hcn : (d.move_type == MoveType.out_refund) = true := by simp [h]
  refine ⟨?_, ?_, ?_, ?_⟩
  · simp [prepare_zimra_invoice_data, hcn, fmtFixed_nonNeg, abs_nonneg]
  · simp [prepare_zimra_invoice_data, hcn, fmtFixed_nonNeg, abs_nonneg]
  · simp [prepare_zimra_invoice_data, hcn, fmtFixed_nonNeg, abs_nonneg]
  · intro li hli
    have hli2 : li ∈ get_line_items cfg d := by
      simpa [prepare_zimra_invoice_data, hcn] using hli
    simp only [get_line_items, List.mem_map] at hli2
    obtain ⟨l, _hl, hmk⟩ := hli2
    subst hmk
    refine ⟨?_, ?_, ?_, ?_⟩
    · simp only [mk_line_item, hcn, if_true]
      split
      · exact fmtFixed_nonNeg _ _ (abs_nonneg _)
      · decide
    · simp only [mk_line_item, hcn, if_true]
      exact fmtFixed_nonNeg _ _ (abs_nonneg _)
    · simp only [mk_line_item, hcn, if_true]
      exact fmtFixed_nonNeg _ _ (abs_nonneg _)
    · simp only [mk_line_item, hcn, if_true]
      exact fmtFixed_nonNeg _ _ (abs_nonneg _)

/-- Witness for C9 at a concrete credit note with negative totals, negative
quantity and a discount. -/
theorem c9_witness :
    nonNegNumericString
      (prepare_zimra_invoice_data { auto_fiscalize := false } "t"
        { name := "RINV-1", move_type := MoveType.out_refund,
          state := MoveState.posted, amount_untaxed := -100, amount_tax := -15,
          amount_total := -115,
          invoice_line_ids :=
            [{ display_type := DisplayType.product, quantity := -2,
               price_unit := 50, discount := 10, price_total := -115 }] }).SubTotal =
      true ∧
    nonNegNumericString
      (prepare_zimra_invoice_data { auto_fiscalize := false } "t"
        { name := "RINV-1", move_type := MoveType.out_refund,
          state := MoveState.posted, amount_untaxed := -100, amount_tax := -15,
          amount_total := -115,
          invoice_line_ids :=
            [{ display_type := DisplayType.product, quantity := -2,
               price_unit := 50, discount := 10, price_total := -115 }] }).Total =
      true :=
  ⟨(c9_credit_note_non_negative { auto_fiscalize := false } "t"
      { name := "RINV-1", move_type := MoveType.out_refund,
        state := MoveState.posted, amount_untaxed := -100, amount_tax := -15,
        amount_total := -115,
        invoice_line_ids :=
          [{ display_type := DisplayType.product, quantity := -2,
             price_unit := 50, discount := 10, price_total := -115 }] } rfl).1,
   (c9_credit_note_non_negative { auto_fiscalize := false } "t"
      { name := "RINV-1", move_type := MoveType.out_refund,
        state := MoveState.posted, amount_untaxed := -100, amount_tax := -15,
        amount_total := -115,
        invoice_line_ids :=
          [{ display_type := DisplayType.product, quantity := -2,
             price_unit := 50, discount := 10, price_total := -115 }] } rfl).2.2.1⟩

/-! ### C1: fiscal number versus status -/

/-- `_send_to_zimra` preserves the fiscal-number invariant when a
configuration is present, no exception fires and a failure response carries
no stray `fiscal_number`/`RequestId` identifiers (successful responses are
unrestricted). -/
lemma send_preserves_invariant (e : Env) (d : Doc) (hce : cleanEnv e = true)
    (hd : fiscal_number_invariant d = true) :
    fiscal_number_invariant (send_to_zimra e d).doc = true := by
  simp only [cleanEnv, Bool.and_eq_true, beq_iff_eq] at hce
  obtain ⟨⟨hcs, hx⟩, hclean⟩ := hce
  obtain ⟨cfg, hcfg⟩ := Option.isSome_iff_exists.mp hcs
  by_cases hf : should_fiscalize d = false
  · simp [send_to_zimra, hcfg, hf, fiscal_number_invariant]
  · by_cases hs : is_fiscalization_successful e.resp
    · simp [send_to_zimra, hcfg, hf, hx, hs, fiscal_number_invariant]
    · simp only [Bool.not_eq_true] at hs
      have hids := headItem_clean_of_failure e.resp hclean hs
      simp [send_to_zimra, hcfg, hf, hx, hs, fiscal_number_invariant,
        hids.1, hids.2, pyTruthyStr]

/-- The fiscal-number invariant only reads the status and fiscal-number
fields, so updating the host `state` field alone cannot break it. -/
lemma invariant_state_update (d : Doc) (s : MoveState) :
    fiscal_number_invariant { d with state := s } = fiscal_number_invariant d := rfl

/-- Every connector operation preserves the fiscal-number invariant under a
clean ambient state. -/
lemma op_preserves_invariant (o : Op) (e : Env) (d : Doc)
    (hce : cleanEnv e = true) (hd : fiscal_number_invariant d = true) :
    fiscal_number_invariant (op_step o e d) = true := by
  cases o with
  | submit =>
    simp only [op_step, action_fiscalize_invoice]
    split
    · exact hd
    · split
      · exact hd
      · exact send_preserves_invariant e d hce hd
  | retry =>
    simp only [op_step, action_retry_fiscalization]
    split
    · exact hd
    · have hfail : d.zimra_status = ZStatus.failed := by
        rename_i hb
        simpa using hb
      have hnum : pyTruthyStr d.zimra_fiscal_number = false := by
        simp only [fiscal_number_invariant, hfail, Bool.or_eq_true,
          Bool.not_eq_true] at hd
        rcases hd with hd | hd
        · simpa using hd
        · simp at hd
      have hd1 : fiscal_number_invariant
          { d with zimra_status := ZStatus.pending, zimra_error := none } = true := by
        simp [fiscal_number_invariant, hnum]
      simp only [action_fiscalize_invoice]
      split
      · exact hd1
      · split
        · exact hd1
        · exact send_preserves_invariant e _ hce hd1
  | cronRetry =>
    simp only [op_step, cron_step]
    split
    · exact send_preserves_invariant e d hce hd
    · exact hd
  | post =>
    simp only [op_step, action_post]
    split
    · exact hd
    · have hd2 : fiscal_number_invariant { d with state := MoveState.posted } = true := by
        rw [invariant_state_update]; exact hd
      split
      · split
        · split
          · exact send_preserves_invariant e _ hce hd2
          · exact hd2
        · exact hd2
      · exact hd2
  | cancel =>
    simp only [op_step, button_cancel]
    split
    · simp only [fiscal_number_invariant] at hd ⊢
      simp [hd]
    · rw [invariant_state_update]; exact hd
  | draftRevert =>
    simp only [op_step, button_draft]
    split
    · simp [fiscal_number_invariant, pyTruthyStr]
    · rw [invariant_state_update]; exact hd

/-- C1 counterexample: submit succeeding (fiscal number `INV-001/12` set,
status fiscalized) followed by cancelling the document leaves the fiscal
number set while the status is `cancelled`, not `fiscalized`.  (The failure
path offers a second violation: a rejection response carrying a `RequestId`
is stored into `zimra_fiscal_number` on a failed document.) -/
theorem c1_counterexample :
    (run_ops
        [(Op.submit,
          { config := some { auto_fiscalize := false },
            resp := some [{ FiscalDay := some "12", InvoiceNumber := some "INV-001",
                            Error := some "" }] }),
         (Op.cancel, { config := some { auto_fiscalize := false } })]
        { name := "INV-001", move_type := MoveType.out_invoice,
          state := MoveState.posted }).zimra_fiscal_number = some "INV-001/12" ∧
    (run_ops
        [(Op.submit,
          { config := some { auto_fiscalize := false },
            resp := some [{ FiscalDay := some "12", InvoiceNumber := some "INV-001",
                            Error := some "" }] }),
         (Op.cancel, { config := some { auto_fiscalize := false } })]
        { name := "INV-001", move_type := MoveType.out_invoice,
          state := MoveState.posted }).zimra_status = ZStatus.cancelled ∧
    ZStatus.cancelled ≠ ZStatus.fiscalized := by
  exact ⟨by decide, by decide, by decide⟩

/-- C1 amended: under every sequence of connector operations whose ambient
states are clean — a configuration is always found, no exception fires, and
no failure response carries a `fiscal_number`/`RequestId` value — a document
satisfying the fiscal-number invariant keeps satisfying it: whenever
`zimra_fiscal_number` is set (truthy), the status is `fiscalized`,
`cancelled` (a fiscalized document that was cancelled) or `exempted` (a
cancelled document resubmitted while no longer posted). -/
theorem c1_amended_invariant (ops : List (Op × Env)) (d : Doc)
    (hclean : ∀ p ∈ ops, cleanEnv p.2 = true)
    (hd : fiscal_number_invariant d = true) :
    fiscal_number_invariant (run_ops ops d) = true := by
  induction ops generalizing d with
  | nil => exact hd
  | cons p rest ih =>
    obtain ⟨o, e⟩ := p
    exact ih (op_step o e d) (fun q hq => hclean q (List.mem_cons_of_mem _ hq))
      (op_preserves_invariant o e d (hclean (o, e) (List.mem_cons_self _ _)) hd)

/-- Witness for C1 amended: a clean successful submission — whose response,
as is typical of the spec's schema, does carry a `RequestId` — followed by a
revert to draft keeps the invariant. -/
theorem c1_witness :
    fiscal_number_invariant
      (run_ops
        [(Op.submit,
          { config := some { auto_fiscalize := false },
            resp := some [{ FiscalDay := some "12", InvoiceNumber := some "INV-001",
                            Error := some "", RequestId := some "REQ-1" }] }),
         (Op.draftRevert, { config := some { auto_fiscalize := false } })]
        { name := "INV-001", move_type := MoveType.out_invoice,
          state := MoveState.posted }) = true :=
  c1_amended_invariant
    [(Op.submit,
      { config := some { auto_fiscalize := false },
        resp := some [{ FiscalDay := some "12", InvoiceNumber := some "INV-001",
                        Error := some "", RequestId := some "REQ-1" }] }),
     (Op.draftRevert, { config := some { auto_fiscalize := false } })]
    { name := "INV-001", move_type := MoveType.out_invoice,
      state := MoveState.posted }
    (by decide) (by decide)

end Zimra
